import Mathlib

/-!
# kinect2.c : command channel, colour and depth framers, colour transfer callbacks

A shallow embedding of `src/kinect2.c` (the gspca sub-driver of the Kinect v2
sensor).  The device state `struct sd` is an explicit record; every C function
becomes a function on that record.  Whatever the C code obtains from outside
(the result of a `usb_bulk_msg`, of `usb_submit_urb`, of `kmalloc`, ...) enters
as an argument.  Calls that leave kinect2.c are recorded, oldest first, in
ghost logs kept inside the record, so that statements such as "no transfer was
issued" or "nothing was handed to the frame sink" can be read off the result.

Byte counts (`datalen`, `pkt_size`, `image_len`, ...) are C `int`s that never
go negative and are kept in `Nat`; return codes are `Int`; the 32-bit command
sequence counter wraps modulo `2^32`.
-/

namespace Kinect2

/-! ## Constants of kinect2.c and of the kernel headers it includes -/

def REQUEST_MAGIC : Nat := 0x06022009
def RESPONSE_MAGIC : Nat := 0x0A6FE000
def KCMD_READ_FIRMWARE_VERSIONS : Nat := 0x02
def KCMD_READ_DATA_PAGE : Nat := 0x22
def KCMD_SET_STREAMING : Nat := 0x2B
def KCMD_START_DEPTH : Nat := 0x09
def KCMD_STOP_DEPTH : Nat := 0x0A
def BULK_SIZE : Nat := 0x8000
def COLOR_IF : Nat := 0
def DEPTH_IF : Nat := 1
def start_cmd : Nat := 0x01
def stop_cmd : Nat := 0x00

/-- Linux errno values used by kinect2.c. -/
def ENOMEM : Int := 12
def EFAULT : Int := 14
def EINVAL : Int := 22
def EOPNOTSUPP : Int := 95
/-- Linux videodev2.h: number of the first driver-private ioctl. -/
def BASE_VIDIOC_PRIVATE : Nat := 192

/-- What is fixed outside kinect2.c when the driver is built: the constant and
the structure sizes that kinect2.h declares (that header is not part of the
sources at hand, so they are parameters) and the byte order of the host. -/
structure Build where
  KINECT2_DEPTH_IMAGE_SIZE : Nat
  sizeof_depth_footer : Nat
  sizeof_color_camera_param : Nat
  sizeof_depth_camera_param : Nat
  sizeof_p0table : Nat
  big_endian : Bool
deriving DecidableEq, Repr

/-- The enum gspca_packet_type of gspca.h. -/
inductive PacketType where
  | DISCARD_PACKET
  | FIRST_PACKET
  | INTER_PACKET
  | LAST_PACKET
deriving DecidableEq, Repr

open PacketType

/-! ## Byte order -/

/-- Reversal of the four bytes of a 32-bit word. -/
def bswap32 (x : Nat) : Nat :=
  (x % 256) * 2 ^ 24 + (x / 2 ^ 8 % 256) * 2 ^ 16 + (x / 2 ^ 16 % 256) * 2 ^ 8 + (x / 2 ^ 24 % 256)

/-- The kernel's `cpu_to_le32`: the identity on a little-endian host, a byte
swap on a big-endian one. -/
def cpu_to_le32 (b : Build) (x : Nat) : Nat :=
  if b.big_endian then bswap32 x else x

/-- The kernel's `le32_to_cpu`, the inverse conversion: the value that a 32-bit word
of host memory carries on the wire. -/
def le32_to_cpu (b : Build) (x : Nat) : Nat :=
  if b.big_endian then bswap32 x else x

/-! ## Device state -/

/-- The `struct request` of kinect2.c: the words as they sit in host memory. -/
structure request where
  magic : Nat
  cmdseq : Nat
  reply_len : Nat
  cmd : Nat
  reserved0 : Nat
  param : List Nat
deriving DecidableEq, Repr

/-- One call of `gspca_frame_add(gspca_dev, packet_type, data, len)`. -/
structure frame_add_call where
  packet_type : PacketType
  data : List Nat
  len : Nat
deriving DecidableEq, Repr

/-- The fields of `struct gspca_dev` (gspca.h) that kinect2.c and the frame sink
touch.  `image` and `frames` are the bytes of the frame in progress and the
frames completed so far; `frame_add_calls` is the ghost log of the calls of
`gspca_frame_add`. -/
structure gspca_dev where
  iface : Nat
  streaming : Nat
  pkt_size : Nat
  image_len : Nat
  last_packet_type : PacketType
  image : List Nat
  frames : List (List Nat)
  frame_add_calls : List frame_add_call
deriving DecidableEq, Repr

/-- One call into the USB core. -/
inductive usb_call where
  | bulk_snd (endpoint : Nat) (len : Nat)
  | bulk_rcv (endpoint : Nat) (len : Nat)
  | submit_urb (urb : Nat) (ret : Int)
deriving DecidableEq, Repr

/-- One call into the kernel allocator or the user-copy helper. -/
inductive mem_call where
  | kmalloc (len : Nat) (ok : Bool)
  | kfree
  | copy_to_user (len : Nat)
deriving DecidableEq, Repr

/-- The `struct sd` of kinect2.c, followed by the ghost logs of the calls that
leave the file: `usb_calls` (bulk messages and URB submissions), `mem_calls`
(allocator and user copies) and `scan_calls` (packets that reached
`sd_color_pkt_scan`, with their declared length). -/
structure sd where
  gspca_dev : gspca_dev
  cmdseq : Nat
  request : request
  response : List Nat
  synced : Nat
  active_urbs : Int
  shutdown : Nat
  usb_calls : List usb_call
  mem_calls : List mem_call
  scan_calls : List (List Nat × Nat)
deriving DecidableEq, Repr

/-! ## The command channel: `send_cmd` -/

/-- What one `usb_bulk_msg` does: its return value and the value it stores
through `actual_length`. -/
structure bulk_result where
  res : Int
  actual_len : Int
deriving DecidableEq, Repr

/-- The transport's side of one `send_cmd`: the outcome of the request write, of
the payload read, of the completion read, and the 32 words found in
`sd->response` once the completion read has returned. -/
structure cmd_transfers where
  snd : bulk_result
  reply : bulk_result
  completion : bulk_result
  response : List Nat
deriving DecidableEq, Repr

/-- The `sizeof(*req) - sizeof(req->param) + num_param*4` of send_cmd. -/
def request_len (num_param : Nat) : Nat := 52 - 32 + num_param * 4

/-- The loop `for (i=0; i<num_param; ++i) req->param[i] = cpu_to_le32(param[i])`:
the first `num_param` slots are overwritten, the others keep what they held. -/
def store_params (b : Build) (old param : List Nat) : List Nat :=
  param.map (cpu_to_le32 b) ++ old.drop param.length

/-- Appends one entry to the ghost log of USB calls; no field of the driver changes. -/
def log_usb (s : sd) (c : usb_call) : sd :=
  { s with usb_calls := s.usb_calls ++ [c] }

/-- Lines 159-164 of send_cmd: the request is built in `sd->request`. -/
def fill_request (b : Build) (s : sd) (cmd : Nat) (param : List Nat) (reply_len : Nat) : sd :=
  { s with
    request :=
      { s.request with
        magic := cpu_to_le32 b REQUEST_MAGIC
        cmdseq := cpu_to_le32 b s.cmdseq
        reply_len := cpu_to_le32 b reply_len
        cmd := cpu_to_le32 b cmd
        param := store_params b s.request.param param } }

/-- Lines 187-206 of send_cmd: the completion block is read into `sd->response`
and checked; `result` is what the function returns when the checks pass. -/
def send_cmd_completion (b : Build) (io : cmd_transfers) (s : sd) (result : Int) : Int × sd :=
  let s3 : sd := { log_usb s (usb_call.bulk_rcv 0x081 (32 * 4)) with response := io.response }
  if io.completion.res < 0 then (io.completion.res, s3)
  else if cpu_to_le32 b RESPONSE_MAGIC ≠ s3.response.getD 0 0 then (-1, s3)
  else if cpu_to_le32 b s3.cmdseq ≠ s3.response.getD 1 0 then (-1, s3)
  else (result, { s3 with cmdseq := (s3.cmdseq + 1) % 2 ^ 32 })

/-- The `send_cmd` of kinect2.c (lines 144-207).  `param` carries `num_param` as
its length.  Returns the C return value and the device state afterwards (the
bytes stored in `replybuf` are not tracked). -/
def send_cmd (b : Build) (io : cmd_transfers) (s : sd) (cmd : Nat) (param : List Nat)
    (reply_len : Nat) : Int × sd :=
  if param.length > 8 then (-1, s)
  else
    let s1 := log_usb (fill_request b s cmd param reply_len)
      (usb_call.bulk_snd 0x002 (request_len param.length))
    if io.snd.res < 0 then (io.snd.res, s1)
    else if reply_len ≠ 0 then
      let s2 := log_usb s1 (usb_call.bulk_rcv 0x081 reply_len)
      if io.reply.res < 0 then (io.reply.res, s2)
      else send_cmd_completion b io s2 io.reply.actual_len
    else send_cmd_completion b io s1 0

/-- The completion block passes the checks of lines 191-202. -/
def completion_ok (b : Build) (io : cmd_transfers) (cmdseq : Nat) : Prop :=
  ¬ io.completion.res < 0 ∧ cpu_to_le32 b RESPONSE_MAGIC = io.response.getD 0 0 ∧
    cpu_to_le32 b cmdseq = io.response.getD 1 0

/-- The call reaches the final `sd->cmdseq++`: at most 8 parameters, the three
transfers succeed and the completion block passes both checks. -/
def send_cmd_passes (b : Build) (io : cmd_transfers) (s : sd) (param : List Nat)
    (reply_len : Nat) : Prop :=
  ¬ param.length > 8 ∧ ¬ io.snd.res < 0 ∧ ¬ (reply_len ≠ 0 ∧ io.reply.res < 0) ∧
    completion_ok b io s.cmdseq

/-- The conditions under which `send_cmd` gives up, as the claim lists them:
more than 8 parameters, failed request write, failed payload read, failed
completion read, completion word 0 (as carried on the wire) different from
0x0A6FE000, completion word 1 different from the sequence number sent. -/
def send_cmd_fails (b : Build) (io : cmd_transfers) (s : sd) (param : List Nat)
    (reply_len : Nat) : Prop :=
  param.length > 8 ∨ io.snd.res < 0 ∨ (reply_len ≠ 0 ∧ io.reply.res < 0) ∨
    io.completion.res < 0 ∨ le32_to_cpu b (io.response.getD 0 0) ≠ 0x0A6FE000 ∨
    le32_to_cpu b (io.response.getD 1 0) ≠ s.cmdseq

instance (b : Build) (io : cmd_transfers) (cmdseq : Nat) : Decidable (completion_ok b io cmdseq) :=
  inferInstanceAs (Decidable (¬ io.completion.res < 0 ∧
    cpu_to_le32 b RESPONSE_MAGIC = io.response.getD 0 0 ∧
    cpu_to_le32 b cmdseq = io.response.getD 1 0))

instance (b : Build) (io : cmd_transfers) (s : sd) (param : List Nat) (reply_len : Nat) :
    Decidable (send_cmd_passes b io s param reply_len) :=
  inferInstanceAs (Decidable (¬ param.length > 8 ∧ ¬ io.snd.res < 0 ∧
    ¬ (reply_len ≠ 0 ∧ io.reply.res < 0) ∧ completion_ok b io s.cmdseq))

instance (b : Build) (io : cmd_transfers) (s : sd) (param : List Nat) (reply_len : Nat) :
    Decidable (send_cmd_fails b io s param reply_len) :=
  inferInstanceAs (Decidable (param.length > 8 ∨ io.snd.res < 0 ∨
    (reply_len ≠ 0 ∧ io.reply.res < 0) ∨ io.completion.res < 0 ∨
    le32_to_cpu b (io.response.getD 0 0) ≠ 0x0A6FE000 ∨
    le32_to_cpu b (io.response.getD 1 0) ≠ s.cmdseq))

/-! ## The frame sink -/

/-- Modelled from the spec: `gspca_frame_add` of gspca.c, the frame sink, is not
among the sources at hand.  The spec describes it as an abstraction that accepts
a segment tag and bytes and manages growth and completion of the frame, whose
accumulated length is reset when a new frame begins: a FIRST segment starts a
frame with its own bytes, an INTER segment extends the frame in progress, a LAST
segment extends it, completes it and returns the accumulated length to 0.  The
spec does not say how the sink treats a DISCARD mark, and kinect2.c never passes
that tag, so here it only records the tag.  Every call is appended to
`frame_add_calls`. -/
def gspca_frame_add (g : gspca_dev) (packet_type : PacketType) (data : List Nat) (len : Nat) :
    gspca_dev :=
  let g1 : gspca_dev :=
    { g with frame_add_calls := g.frame_add_calls ++ [⟨packet_type, data, len⟩] }
  match packet_type with
  | FIRST_PACKET =>
    { g1 with image := data.take len, image_len := len, last_packet_type := FIRST_PACKET }
  | INTER_PACKET =>
    { g1 with
      image := g.image ++ data.take len
      image_len := g.image_len + len
      last_packet_type := INTER_PACKET }
  | LAST_PACKET =>
    { g1 with
      frames := g.frames ++ [g.image ++ data.take len]
      image := []
      image_len := 0
      last_packet_type := LAST_PACKET }
  | DISCARD_PACKET => { g1 with last_packet_type := DISCARD_PACKET }

/-! ## The colour framer: `sd_color_pkt_scan` -/

/-- Modelled from the spec: `struct kinect2_color_header` of kinect2.h is not
among the sources at hand; the spec places the magic value at the head of the
first chunk of a frame.  This is `h->magic`: the 32-bit word that the host loads
from the first four bytes of `data`. -/
def color_header_magic (b : Build) (data : List Nat) : Nat :=
  if b.big_endian then
    data.getD 3 0 + 256 * data.getD 2 0 + 65536 * data.getD 1 0 + 16777216 * data.getD 0 0
  else
    data.getD 0 0 + 256 * data.getD 1 0 + 65536 * data.getD 2 0 + 16777216 * data.getD 3 0

/-- Lines 222-227 of sd_color_pkt_scan: the tag is chosen from the length and the
packet is handed to the frame sink. -/
def color_frame_add (s : sd) (data : List Nat) (datalen : Nat) : sd :=
  let type : PacketType :=
    if BULK_SIZE ≠ datalen then LAST_PACKET
    else if s.gspca_dev.image_len ≠ 0 then INTER_PACKET else FIRST_PACKET
  { s with gspca_dev := gspca_frame_add s.gspca_dev type data datalen }

/-- The `sd_color_pkt_scan` of kinect2.c (lines 209-228).  `data` is the transfer
buffer, `datalen` the number of bytes the transfer delivered.  The call itself
is noted in `scan_calls`. -/
def sd_color_pkt_scan (b : Build) (s : sd) (data : List Nat) (datalen : Nat) : sd :=
  let s0 : sd := { s with scan_calls := s.scan_calls ++ [(data, datalen)] }
  if s0.gspca_dev.image_len = 0 then
    if 0x42424242 ≠ color_header_magic b data then s0
    else color_frame_add s0 data datalen
  else color_frame_add s0 data datalen

/-! ## The depth framer: `sd_depth_pkt_scan` -/

/-- Modelled from the spec: `struct kinect2_depth_footer` of kinect2.h is not
among the sources at hand; the spec lists a zero-valued marker, the total
expected depth-image length and a sub-sequence index.  These are the three
fields that kinect2.c reads. -/
structure kinect2_depth_footer where
  magic0 : Nat
  length : Nat
  subsequence : Nat
deriving DecidableEq, Repr

/-- One depth packet as `sd_depth_pkt_scan` receives it: the bytes at `data`,
their number `datalen`, and `f`, the footer structure that sits at
`data + datalen - sizeof(*f)`. -/
structure depth_packet where
  data : List Nat
  datalen : Nat
  f : kinect2_depth_footer
deriving DecidableEq, Repr

/-- The label `discard:` of sd_depth_pkt_scan (lines 264-267). -/
def discard (s : sd) : sd :=
  { s with
    gspca_dev := { s.gspca_dev with last_packet_type := DISCARD_PACKET }
    synced := 0 }

/-- The `sd_depth_pkt_scan` of kinect2.c (lines 230-268). -/
def sd_depth_pkt_scan (b : Build) (s : sd) (p : depth_packet) : sd :=
  if s.gspca_dev.pkt_size ≠ p.datalen then
    if 0x00 ≠ p.f.magic0 then discard s
    else if b.KINECT2_DEPTH_IMAGE_SIZE ≠ p.f.length then discard s
    else if s.synced ≠ 0 then
      { s with
        gspca_dev := gspca_frame_add s.gspca_dev
          (if 9 = p.f.subsequence then LAST_PACKET else INTER_PACKET) p.data p.datalen }
    else if 9 = p.f.subsequence then { s with synced := 1 }
    else s
  else if s.synced ≠ 0 then
    { s with
      gspca_dev := gspca_frame_add s.gspca_dev
        (if 0 = s.gspca_dev.image_len then FIRST_PACKET else INTER_PACKET) p.data p.datalen }
  else discard s

/-- A whole stream of depth packets, fed one after the other. -/
def depth_scan_all (b : Build) (s : sd) (ps : List depth_packet) : sd :=
  ps.foldl (sd_depth_pkt_scan b) s

/-- A stream of colour packets (buffer and delivered length), fed one after the other. -/
def color_scan_all (b : Build) (s : sd) (ps : List (List Nat × Nat)) : sd :=
  ps.foldl (fun t p => sd_color_pkt_scan b t p.1 p.2) s

/-! ## The colour transfer pool: `bulk_pkt` and `kinect2_dostream` -/

/-- The fields of `struct urb` that bulk_pkt reads; `id` tells the four buffers
of the pool apart. -/
structure urb where
  id : Nat
  status : Int
  transfer_buffer : List Nat
  actual_length : Nat
deriving DecidableEq, Repr

/-- The completion callback `bulk_pkt` of kinect2.c (lines 317-338).
`submit_ret` is what `usb_submit_urb` returns if the callback calls it. -/
def bulk_pkt (b : Build) (submit_ret : Int) (s : sd) (u : urb) : sd :=
  if s.gspca_dev.streaming = 0 then s
  else if u.status ≠ 0 then s
  else
    let s1 := sd_color_pkt_scan b s u.transfer_buffer u.actual_length
    log_usb s1 (usb_call.submit_urb u.id submit_ret)

/-- The loop of lines 381-388 of kinect2_dostream over the buffers that are left
to submit; `false` stands for the `goto exit`. -/
def submit_loop (submit_ret : Nat → Int) : List Nat → sd → sd × Bool
  | [], s => (s, true)
  | i :: rest, s =>
    let s1 := log_usb s (usb_call.submit_urb i (submit_ret i))
    if submit_ret i < 0 then (s1, false)
    else submit_loop submit_ret rest { s1 with active_urbs := s1.active_urbs + 1 }

/-- Lines 379-388 of kinect2_dostream, reached once the allocation loop of lines
349-378 has gone through: the count is cleared and the four buffers are
submitted, the count going up by one for each accepted buffer. -/
def dostream_submit (submit_ret : Nat → Int) (s : sd) : sd × Bool :=
  submit_loop submit_ret [0, 1, 2, 3] { s with active_urbs := 0 }

/-- The condition of the wait loop of kinect2_dostream (line 394):
`gspca_dev->streaming && !sd->shutdown && sd->active_urbs > 0`. -/
def dostream_wait_cond (s : sd) : Bool :=
  decide (s.gspca_dev.streaming ≠ 0) && decide (s.shutdown = 0) && decide (s.active_urbs > 0)

/-- A run of completions delivered to bulk_pkt, each with the return value its
resubmission would get. -/
def bulk_pkt_all (b : Build) (s : sd) (cs : List (urb × Int)) : sd :=
  cs.foldl (fun t c => bulk_pkt b c.2 t c.1) s

/-! ## The parameter-page ioctl: `sd_private_ioctl` -/

/-- Appends one entry to the ghost log of allocator calls. -/
def log_mem (s : sd) (c : mem_call) : sd :=
  { s with mem_calls := s.mem_calls ++ [c] }

/-- Modelled from the spec: `struct kinect2_ioctl_req` of kinect2.h is not among
the sources at hand; the caller declares the length of its buffer (`len`) and
its address (`ptr`). -/
structure kinect2_ioctl_req where
  len : Nat
  ptr : Nat
deriving DecidableEq, Repr

/-- The table of sd_private_ioctl (lines 580-587): page identifier and expected length. -/
def ioctl_table (b : Build) : List (Nat × Nat) :=
  [(0x04, b.sizeof_color_camera_param), (0x03, b.sizeof_depth_camera_param),
    (0x02, b.sizeof_p0table)]

/-- Linux `_IOC_NR`: the low eight bits of an ioctl command. -/
def IOC_NR (cmd : Nat) : Nat := cmd % 256

/-- Conversion of a 32-bit unsigned value to `int`. -/
def int_of_u32 (x : Nat) : Int :=
  if x < 2 ^ 31 then (x : Int) else (x : Int) - 2 ^ 32

/-- The `int num = _IOC_NR(cmd) - BASE_VIDIOC_PRIVATE` of line 592: an unsigned
subtraction stored in an `int`. -/
def ioctl_num (cmd : Nat) : Int :=
  int_of_u32 ((IOC_NR cmd + 2 ^ 32 - BASE_VIDIOC_PRIVATE) % 2 ^ 32)

/-- What sd_private_ioctl meets outside kinect2.c: whether `kmalloc` succeeds, the
transfers of its `send_cmd`, and the count of bytes `copy_to_user` leaves uncopied. -/
structure ioctl_env where
  kmalloc_ok : Bool
  transfers : cmd_transfers
  copy_to_user_ret : Nat
deriving DecidableEq, Repr

/-- The `sd_private_ioctl` of kinect2.c (lines 575-626). -/
def sd_private_ioctl (b : Build) (env : ioctl_env) (s : sd) (cmd : Nat)
    (req : kinect2_ioctl_req) : Int × sd :=
  let num := ioctl_num cmd
  if num < 0 ∨ 3 ≤ num then (-EOPNOTSUPP, s)
  else
    let entry := (ioctl_table b).getD num.toNat (0, 0)
    if req.len ≠ entry.2 then (-EINVAL, s)
    else
      let s1 := log_mem s (mem_call.kmalloc entry.2 env.kmalloc_ok)
      if env.kmalloc_ok = false then (-ENOMEM, s1)
      else
        let r := send_cmd b env.transfers s1 KCMD_READ_DATA_PAGE [entry.1] entry.2
        if (entry.2 : Int) = r.1 then
          let s3 := log_mem r.2 (mem_call.copy_to_user entry.2)
          ((if env.copy_to_user_ret ≠ 0 then -EFAULT else 0), log_mem s3 mem_call.kfree)
        else (-EFAULT, log_mem r.2 mem_call.kfree)

/-! ## Stream control: `sd_stopN` -/

/-- The `sd_stopN` of kinect2.c (lines 532-555), built with KINECT2_USE_WORKQUEUE:
the colour interface only raises the shutdown flag, the depth interface sends
the stop command (its return value is only logged). -/
def sd_stopN (b : Build) (io : cmd_transfers) (s : sd) : sd :=
  if s.gspca_dev.iface = COLOR_IF then { s with shutdown := 1 }
  else if s.gspca_dev.iface = DEPTH_IF then (send_cmd b io s KCMD_STOP_DEPTH [] 0).2
  else s

/-! ## Vocabulary of the statements -/

/-- A packet of exactly the nominal size. -/
def nominal (pkt_size : Nat) (p : depth_packet) : Prop :=
  p.datalen = pkt_size

/-- A packet whose length differs from the nominal size and whose footer passes
both checks: marker 0 and declared length KINECT2_DEPTH_IMAGE_SIZE. -/
def valid_short (b : Build) (pkt_size : Nat) (p : depth_packet) : Prop :=
  p.datalen ≠ pkt_size ∧ p.f.magic0 = 0 ∧ p.f.length = b.KINECT2_DEPTH_IMAGE_SIZE

/-- A packet whose length differs from the nominal size and whose footer has a
non-zero marker, or marker 0 and a wrong declared length. -/
def bad_footer (b : Build) (pkt_size : Nat) (p : depth_packet) : Prop :=
  p.datalen ≠ pkt_size ∧
    (p.f.magic0 ≠ 0 ∨ (p.f.magic0 = 0 ∧ p.f.length ≠ b.KINECT2_DEPTH_IMAGE_SIZE))

/-- The packet on which an unsynchronised framer synchronises: valid footer and
sub-sequence 9. -/
def resync_packet (b : Build) (pkt_size : Nat) (p : depth_packet) : Prop :=
  valid_short b pkt_size p ∧ p.f.subsequence = 9

instance (pkt_size : Nat) (p : depth_packet) : Decidable (nominal pkt_size p) :=
  inferInstanceAs (Decidable (p.datalen = pkt_size))

instance (b : Build) (pkt_size : Nat) (p : depth_packet) : Decidable (valid_short b pkt_size p) :=
  inferInstanceAs (Decidable
    (p.datalen ≠ pkt_size ∧ p.f.magic0 = 0 ∧ p.f.length = b.KINECT2_DEPTH_IMAGE_SIZE))

instance (b : Build) (pkt_size : Nat) (p : depth_packet) : Decidable (bad_footer b pkt_size p) :=
  inferInstanceAs (Decidable (p.datalen ≠ pkt_size ∧
    (p.f.magic0 ≠ 0 ∨ (p.f.magic0 = 0 ∧ p.f.length ≠ b.KINECT2_DEPTH_IMAGE_SIZE))))

instance (b : Build) (pkt_size : Nat) (p : depth_packet) :
    Decidable (resync_packet b pkt_size p) :=
  inferInstanceAs (Decidable (valid_short b pkt_size p ∧ p.f.subsequence = 9))

/-- The steps of a run of the depth framer: state before, packet, state after. -/
def depth_steps (b : Build) : sd → List depth_packet → List (sd × depth_packet × sd)
  | _, [] => []
  | s, p :: ps =>
    (s, p, sd_depth_pkt_scan b s p) :: depth_steps b (sd_depth_pkt_scan b s p) ps

/-- The number of steps of a run on which synced goes from 0 to 1. -/
def sync_transitions (b : Build) (s : sd) (ps : List depth_packet) : Nat :=
  ((depth_steps b s ps).filter (fun t => decide (t.1.synced = 0 ∧ t.2.2.synced = 1))).length

/-- One frame cycle of the depth stream: a first nominal-size packet, the packets
that follow it, and the closing packet. -/
structure frame_cycle where
  first : depth_packet
  body : List depth_packet
  last : depth_packet
deriving DecidableEq, Repr

/-- The packets of a cycle in the order of arrival. -/
def frame_cycle.packets (c : frame_cycle) : List depth_packet :=
  c.first :: (c.body ++ [c.last])

/-- A full, well-formed cycle: the first packet has the nominal size; every
packet of the body either has the nominal size or is a short packet with a
valid footer whose sub-sequence is not 9 (the closers of the groups 0 to 8);
the last packet is a short packet with a valid footer and sub-sequence 9. -/
def frame_cycle.well_formed (b : Build) (pkt_size : Nat) (c : frame_cycle) : Prop :=
  nominal pkt_size c.first ∧
    (∀ q ∈ c.body, nominal pkt_size q ∨ (valid_short b pkt_size q ∧ q.f.subsequence ≠ 9)) ∧
    resync_packet b pkt_size c.last

/-- What the claim expects the sink to receive for a cycle: FIRST for the first
packet, INTER for every packet of the body, LAST for the closing packet, each
with the whole packet. -/
def frame_cycle.expected (c : frame_cycle) : List frame_add_call :=
  ⟨FIRST_PACKET, c.first.data, c.first.datalen⟩ ::
    (c.body.map (fun q => ⟨INTER_PACKET, q.data, q.datalen⟩) ++
      [⟨LAST_PACKET, c.last.data, c.last.datalen⟩])

instance (b : Build) (pkt_size : Nat) (c : frame_cycle) :
    Decidable (c.well_formed b pkt_size) :=
  inferInstanceAs (Decidable (nominal pkt_size c.first ∧
    (∀ q ∈ c.body, nominal pkt_size q ∨ (valid_short b pkt_size q ∧ q.f.subsequence ≠ 9)) ∧
    resync_packet b pkt_size c.last))

/-- The packets of consecutive cycles, in the order of arrival. -/
def cycles_packets : List frame_cycle → List depth_packet
  | [] => []
  | c :: cs => c.packets ++ cycles_packets cs

/-- What the claim expects the sink to receive for consecutive cycles. -/
def cycles_expected : List frame_cycle → List frame_add_call
  | [] => []
  | c :: cs => c.expected ++ cycles_expected cs

/-- The tags of a list of sink calls. -/
def tags (cs : List frame_add_call) : List PacketType :=
  cs.map frame_add_call.packet_type

/-! ## Sample values -/

/-- A sample build: little-endian host, a depth image of 512 x 424 pixels of 11
bits, and sample sizes for the structures of kinect2.h. -/
def build0 : Build :=
  { KINECT2_DEPTH_IMAGE_SIZE := 298496
    sizeof_depth_footer := 152
    sizeof_color_camera_param := 112
    sizeof_depth_camera_param := 240
    sizeof_p0table := 4096
    big_endian := false }

/-- A freshly configured device (colour interface): everything zero, isochronous
packets of 1024 bytes. -/
def sd0 : sd :=
  { gspca_dev :=
      { iface := 0, streaming := 0, pkt_size := 1024, image_len := 0,
        last_packet_type := DISCARD_PACKET, image := [], frames := [], frame_add_calls := [] }
    cmdseq := 0
    request := { magic := 0, cmdseq := 0, reply_len := 0, cmd := 0, reserved0 := 0,
                 param := [0, 0, 0, 0, 0, 0, 0, 0] }
    response := []
    synced := 0
    active_urbs := 0
    shutdown := 0
    usb_calls := []
    mem_calls := []
    scan_calls := [] }

/-- A depth packet of the nominal size (1024 bytes, no footer is read). -/
def nominal_pkt : depth_packet :=
  { data := List.replicate 1024 7, datalen := 1024, f := ⟨7, 7, 7⟩ }

/-- A short depth packet with a valid footer of sub-sequence `n`. -/
def short_pkt (n : Nat) : depth_packet :=
  { data := List.replicate 200 0, datalen := 200, f := ⟨0, 298496, n⟩ }

/-- A short depth packet whose footer has a non-zero marker. -/
def bad_marker_pkt : depth_packet :=
  { data := List.replicate 200 1, datalen := 200, f := ⟨1, 298496, 9⟩ }

/-- The sample device seen through its depth interface, not yet synchronised. -/
def sd_depth : sd :=
  { sd0 with gspca_dev := { sd0.gspca_dev with iface := 1 } }

/-- The depth interface once the framer has synchronised. -/
def sd_synced : sd :=
  { sd_depth with synced := 1 }

/-- A colour transfer buffer (32768 bytes) that carries the magic at its head. -/
def magic_buf : List Nat :=
  [0x42, 0x42, 0x42, 0x42] ++ List.replicate 32764 0

/-- A colour transfer buffer (32768 bytes) without the magic at its head. -/
def plain_buf : List Nat :=
  List.replicate 32768 0

/-- A full cycle: ten groups of one nominal-size packet, closed by short packets
with valid footers of sub-sequences 0 to 9. -/
def full_cycle : frame_cycle :=
  { first := nominal_pkt
    body := [short_pkt 0, nominal_pkt, short_pkt 1, nominal_pkt, short_pkt 2, nominal_pkt,
      short_pkt 3, nominal_pkt, short_pkt 4, nominal_pkt, short_pkt 5, nominal_pkt,
      short_pkt 6, nominal_pkt, short_pkt 7, nominal_pkt, short_pkt 8, nominal_pkt]
    last := short_pkt 9 }

/-- A frame is started, synchronisation is lost halfway on a bad footer, and the
next short packet with sub-sequence 9 restores it. -/
def abandoned_then_resynced : sd :=
  depth_scan_all build0 sd_synced [nominal_pkt, bad_marker_pkt, short_pkt 9]

/-- The sample device while the colour stream is active. -/
def sd_streaming : sd :=
  { sd0 with gspca_dev := { sd0.gspca_dev with streaming := 1 } }

/-- A completed transfer of buffer `i`: status 0, a full buffer with the magic at its head. -/
def completed_urb (i : Nat) : urb :=
  { id := i, status := 0, transfer_buffer := magic_buf, actual_length := 32768 }

/-- The ioctl command `_IOWR(0x56, 192 + n, 16-byte argument)`. -/
def page_ioctl (n : Nat) : Nat :=
  0xC0105600 + 192 + n

/-- Transfers that all succeed, with a completion block echoing sequence number `seq`. -/
def transfers_ok (seq : Nat) (actual_len : Int) : cmd_transfers :=
  { snd := ⟨0, 0⟩, reply := ⟨0, actual_len⟩, completion := ⟨0, 8⟩,
    response := [0x0A6FE000, seq] }

/-- An environment in which the allocator and every transfer succeed. -/
def ioctl_env_ok : ioctl_env :=
  { kmalloc_ok := true, transfers := transfers_ok 0 112, copy_to_user_ret := 0 }

/-! ## Theorems -/

theorem bswap32_bytes (a b c d : Nat) (ha : a < 256) (hb : b < 256) (hc : c < 256)
    (hd : d < 256) :
    bswap32 (a + 256 * b + 65536 * c + 16777216 * d) = d + 256 * c + 65536 * b + 16777216 * a := by
  unfold bswap32
  omega

theorem bswap32_bswap32 (x : Nat) (hx : x < 2 ^ 32) : bswap32 (bswap32 x) = x := by
  have hsplit : x = x % 256 + 256 * (x / 256 % 256) + 65536 * (x / 65536 % 256)
      + 16777216 * (x / 16777216) := by omega
  have h3 : x / 16777216 < 256 := by omega
  have e1 : bswap32 x = x / 16777216 + 256 * (x / 65536 % 256) + 65536 * (x / 256 % 256)
      + 16777216 * (x % 256) := by
    conv_lhs => rw [hsplit]
    exact bswap32_bytes _ _ _ _ (Nat.mod_lt _ (by norm_num)) (Nat.mod_lt _ (by norm_num))
      (Nat.mod_lt _ (by norm_num)) h3
  rw [e1, bswap32_bytes _ _ _ _ h3 (Nat.mod_lt _ (by norm_num)) (Nat.mod_lt _ (by norm_num))
    (Nat.mod_lt _ (by norm_num))]
  omega

theorem bswap32_lt (x : Nat) : bswap32 x < 2 ^ 32 := by
  unfold bswap32
  omega

/-- A host word equals `cpu_to_le32 v` exactly when the value it carries on the
wire is `v`. -/
theorem cpu_to_le32_ne_iff (b : Build) (v w : Nat) (hv : v < 2 ^ 32) (hw : w < 2 ^ 32) :
    cpu_to_le32 b v ≠ w ↔ le32_to_cpu b w ≠ v := by
  unfold cpu_to_le32 le32_to_cpu
  cases b.big_endian
  · simp only [Bool.false_eq_true, if_false]
    exact ⟨fun h e => h e.symm, fun h e => h e.symm⟩
  · simp only [if_true]
    constructor
    · intro h e
      apply h
      rw [← e, bswap32_bswap32 w hw]
    · intro h e
      apply h
      rw [← e, bswap32_bswap32 v hv]

theorem getD_lt_of_forall (l : List Nat) (i : Nat) (h : ∀ w ∈ l, w < 2 ^ 32) :
    l.getD i 0 < 2 ^ 32 := by
  rw [List.getD_eq_getElem?_getD]
  cases hi : l[i]? with
  | none => simp
  | some w => exact h w (List.getElem?_mem hi)

@[simp] theorem log_usb_cmdseq (s : sd) (c : usb_call) : (log_usb s c).cmdseq = s.cmdseq := rfl

@[simp] theorem fill_request_cmdseq (b : Build) (s : sd) (cmd : Nat) (param : List Nat)
    (reply_len : Nat) : (fill_request b s cmd param reply_len).cmdseq = s.cmdseq := rfl

theorem send_cmd_completion_ok (b : Build) (io : cmd_transfers) (s : sd) (result : Int)
    (h : completion_ok b io s.cmdseq) :
    (send_cmd_completion b io s result).1 = result ∧
    (send_cmd_completion b io s result).2.cmdseq = (s.cmdseq + 1) % 2 ^ 32 := by
  obtain ⟨h1, h2, h3⟩ := h
  unfold send_cmd_completion
  simp only [log_usb]
  rw [if_neg h1, if_neg (not_not.mpr h2), if_neg (not_not.mpr h3)]
  exact ⟨rfl, rfl⟩

theorem send_cmd_completion_bad (b : Build) (io : cmd_transfers) (s : sd) (result : Int)
    (h : ¬ completion_ok b io s.cmdseq) :
    (send_cmd_completion b io s result).1 < 0 ∧
    (send_cmd_completion b io s result).2.cmdseq = s.cmdseq := by
  unfold send_cmd_completion
  simp only [log_usb]
  by_cases h1 : io.completion.res < 0
  · rw [if_pos h1]
    exact ⟨h1, rfl⟩
  rw [if_neg h1]
  by_cases h2 : cpu_to_le32 b RESPONSE_MAGIC = io.response.getD 0 0
  · rw [if_neg (not_not.mpr h2)]
    by_cases h3 : cpu_to_le32 b s.cmdseq = io.response.getD 1 0
    · exact absurd ⟨h1, h2, h3⟩ h
    · rw [if_pos h3]
      exact ⟨by norm_num, rfl⟩
  · rw [if_pos h2]
    exact ⟨by norm_num, rfl⟩

theorem send_cmd_of_passes (b : Build) (io : cmd_transfers) (s : sd) (cmd : Nat)
    (param : List Nat) (reply_len : Nat) (h : send_cmd_passes b io s param reply_len) :
    (send_cmd b io s cmd param reply_len).2.cmdseq = (s.cmdseq + 1) % 2 ^ 32 := by
  obtain ⟨h1, h2, h3, h4⟩ := h
  unfold send_cmd
  rw [if_neg h1]
  simp only []
  rw [if_neg h2]
  by_cases hr : reply_len ≠ 0
  · rw [if_pos hr, if_neg (fun hlt => h3 ⟨hr, hlt⟩)]
    refine (send_cmd_completion_ok b io _ _ ?_).2
    exact h4
  · rw [if_neg hr]
    refine (send_cmd_completion_ok b io _ _ ?_).2
    exact h4

theorem send_cmd_of_not_passes (b : Build) (io : cmd_transfers) (s : sd) (cmd : Nat)
    (param : List Nat) (reply_len : Nat) (h : ¬ send_cmd_passes b io s param reply_len) :
    (send_cmd b io s cmd param reply_len).1 < 0 ∧
    (send_cmd b io s cmd param reply_len).2.cmdseq = s.cmdseq := by
  unfold send_cmd
  by_cases h1 : param.length > 8
  · rw [if_pos h1]
    exact ⟨by norm_num, rfl⟩
  rw [if_neg h1]
  simp only []
  by_cases h2 : io.snd.res < 0
  · rw [if_pos h2]
    exact ⟨h2, rfl⟩
  rw [if_neg h2]
  by_cases hr : reply_len ≠ 0
  · rw [if_pos hr]
    by_cases h3 : io.reply.res < 0
    · rw [if_pos h3]
      exact ⟨h3, rfl⟩
    · rw [if_neg h3]
      have hbad : ¬ completion_ok b io s.cmdseq := fun hok => h ⟨h1, h2, fun c => h3 c.2, hok⟩
      refine send_cmd_completion_bad b io _ _ ?_
      exact hbad
  · rw [if_neg hr]
    have hbad : ¬ completion_ok b io s.cmdseq := fun hok => h ⟨h1, h2, fun c => hr c.1, hok⟩
    refine send_cmd_completion_bad b io _ _ ?_
    exact hbad

theorem send_cmd_fails_iff (b : Build) (io : cmd_transfers) (s : sd) (param : List Nat)
    (reply_len : Nat) (hseq : s.cmdseq < 2 ^ 32) (hresp : ∀ w ∈ io.response, w < 2 ^ 32) :
    send_cmd_fails b io s param reply_len ↔ ¬ send_cmd_passes b io s param reply_len := by
  have h0 := cpu_to_le32_ne_iff b RESPONSE_MAGIC (io.response.getD 0 0)
    (by unfold RESPONSE_MAGIC; norm_num) (getD_lt_of_forall _ 0 hresp)
  have h1 := cpu_to_le32_ne_iff b s.cmdseq (io.response.getD 1 0) hseq
    (getD_lt_of_forall _ 1 hresp)
  have hm : (0x0A6FE000 : Nat) = RESPONSE_MAGIC := rfl
  unfold send_cmd_fails send_cmd_passes completion_ok
  rw [hm, ← h0, ← h1]
  constructor
  · rintro (h | h | h | h | h | h) ⟨p1, p2, p3, p4, p5, p6⟩
    · exact p1 h
    · exact p2 h
    · exact p3 h
    · exact p4 h
    · exact h p5
    · exact h p6
  · intro h
    by_cases p1 : param.length > 8
    · exact Or.inl p1
    by_cases p2 : io.snd.res < 0
    · exact Or.inr (Or.inl p2)
    by_cases p3 : reply_len ≠ 0 ∧ io.reply.res < 0
    · exact Or.inr (Or.inr (Or.inl p3))
    by_cases p4 : io.completion.res < 0
    · exact Or.inr (Or.inr (Or.inr (Or.inl p4)))
    by_cases p5 : cpu_to_le32 b RESPONSE_MAGIC = io.response.getD 0 0
    · by_cases p6 : cpu_to_le32 b s.cmdseq = io.response.getD 1 0
      · exact absurd ⟨p1, p2, p3, p4, p5, p6⟩ h
      · exact Or.inr (Or.inr (Or.inr (Or.inr (Or.inr p6))))
    · exact Or.inr (Or.inr (Or.inr (Or.inr (Or.inl p5))))

/-- C1: whatever the command, the parameters, the reply length, the outcome of
the three bulk transfers and the contents of the completion block, a call of
send_cmd that returns a value >= 0 leaves cmdseq at its old value plus one
(as a 32-bit counter); a call that gives up for one of the listed reasons
returns a negative value and leaves cmdseq unchanged; and when none of those
reasons applies the counter does advance. -/
theorem send_cmd_cmdseq (b : Build) (io : cmd_transfers) (s : sd) (cmd : Nat)
    (param : List Nat) (reply_len : Nat)
    (hseq : s.cmdseq < 2 ^ 32) (hresp : ∀ w ∈ io.response, w < 2 ^ 32) :
    (0 ≤ (send_cmd b io s cmd param reply_len).1 →
        (send_cmd b io s cmd param reply_len).2.cmdseq = (s.cmdseq + 1) % 2 ^ 32) ∧
    (send_cmd_fails b io s param reply_len →
        (send_cmd b io s cmd param reply_len).1 < 0 ∧
        (send_cmd b io s cmd param reply_len).2.cmdseq = s.cmdseq) ∧
    (¬ send_cmd_fails b io s param reply_len →
        (send_cmd b io s cmd param reply_len).2.cmdseq = (s.cmdseq + 1) % 2 ^ 32) := by
  have hiff := send_cmd_fails_iff b io s param reply_len hseq hresp
  refine ⟨?_, ?_, ?_⟩
  · intro hret
    by_cases hp : send_cmd_passes b io s param reply_len
    · exact send_cmd_of_passes b io s cmd param reply_len hp
    · have := (send_cmd_of_not_passes b io s cmd param reply_len hp).1
      omega
  · intro hf
    exact send_cmd_of_not_passes b io s cmd param reply_len (hiff.mp hf)
  · intro hf
    have hp : send_cmd_passes b io s param reply_len := by
      by_contra hn
      exact hf (hiff.mpr hn)
    exact send_cmd_of_passes b io s cmd param reply_len hp

/-- Witness of C1: a successful exchange on a fresh device moves cmdseq from 0 to 1. -/
theorem send_cmd_cmdseq_witness :
    (send_cmd build0 (transfers_ok 0 0) sd0 KCMD_SET_STREAMING [start_cmd] 0).2.cmdseq = 1 :=
  (send_cmd_cmdseq build0 (transfers_ok 0 0) sd0 KCMD_SET_STREAMING [start_cmd] 0
    (by decide) (by decide)).1 (by decide)

/-! ### The frame sink and the depth framer, one packet at a time -/

@[simp] theorem gspca_frame_add_pkt_size (g : gspca_dev) (t : PacketType) (data : List Nat)
    (len : Nat) : (gspca_frame_add g t data len).pkt_size = g.pkt_size := by
  cases t <;> rfl

@[simp] theorem gspca_frame_add_streaming (g : gspca_dev) (t : PacketType) (data : List Nat)
    (len : Nat) : (gspca_frame_add g t data len).streaming = g.streaming := by
  cases t <;> rfl

@[simp] theorem gspca_frame_add_calls (g : gspca_dev) (t : PacketType) (data : List Nat)
    (len : Nat) :
    (gspca_frame_add g t data len).frame_add_calls = g.frame_add_calls ++ [⟨t, data, len⟩] := by
  cases t <;> rfl

/-- The depth framer outside the synchronised state never calls the sink, and
ends synchronised exactly on a resync packet. -/
theorem sd_depth_pkt_scan_unsynced (b : Build) (s : sd) (p : depth_packet) (h : s.synced = 0) :
    (sd_depth_pkt_scan b s p).gspca_dev.frame_add_calls = s.gspca_dev.frame_add_calls ∧
    ((sd_depth_pkt_scan b s p).synced = 1 ↔ resync_packet b s.gspca_dev.pkt_size p) ∧
    (¬ resync_packet b s.gspca_dev.pkt_size p → (sd_depth_pkt_scan b s p).synced = 0) ∧
    (sd_depth_pkt_scan b s p).gspca_dev.pkt_size = s.gspca_dev.pkt_size := by
  unfold sd_depth_pkt_scan resync_packet valid_short
  by_cases h1 : s.gspca_dev.pkt_size ≠ p.datalen
  · rw [if_pos h1]
    by_cases h2 : 0x00 ≠ p.f.magic0
    · rw [if_pos h2]
      simp only [discard]
      refine ⟨trivial, ?_, fun _ => trivial, trivial⟩
      constructor
      · intro e
        exact absurd e (by decide)
      · rintro ⟨⟨_, e, _⟩, _⟩
        exact absurd e.symm h2
    rw [if_neg h2]
    by_cases h3 : b.KINECT2_DEPTH_IMAGE_SIZE ≠ p.f.length
    · rw [if_pos h3]
      simp only [discard]
      refine ⟨trivial, ?_, fun _ => trivial, trivial⟩
      constructor
      · intro e
        exact absurd e (by decide)
      · rintro ⟨⟨_, _, e⟩, _⟩
        exact absurd e.symm h3
    rw [if_neg h3, if_neg (not_not.mpr h)]
    by_cases h4 : 9 = p.f.subsequence
    · rw [if_pos h4]
      refine ⟨rfl, ?_, ?_, rfl⟩
      · constructor
        · intro _
          exact ⟨⟨fun e => h1 e.symm, (not_not.mp h2).symm, (not_not.mp h3).symm⟩, h4.symm⟩
        · intro _
          rfl
      · intro hn
        exact absurd ⟨⟨fun e => h1 e.symm, (not_not.mp h2).symm, (not_not.mp h3).symm⟩, h4.symm⟩ hn
    · rw [if_neg h4]
      refine ⟨rfl, ?_, fun _ => h, rfl⟩
      constructor
      · intro e
        rw [h] at e
        exact absurd e (by decide)
      · rintro ⟨_, e⟩
        exact absurd e.symm h4
  · rw [if_neg h1, if_neg (not_not.mpr h)]
    simp only [discard]
    refine ⟨trivial, ?_, fun _ => trivial, trivial⟩
    constructor
    · intro e
      exact absurd e (by decide)
    · rintro ⟨⟨e, _, _⟩, _⟩
      exact absurd e.symm h1

/-- C2: a depth packet whose length differs from the nominal packet size and
whose footer has a non-zero marker, or marker 0 and a declared length other
than KINECT2_DEPTH_IMAGE_SIZE, leaves synced at 0 whatever it was, leaves
last_packet_type at DISCARD_PACKET, and is not handed to gspca_frame_add: the
log of sink calls, the frame in progress and the completed frames are as before. -/
theorem sd_depth_pkt_scan_bad_footer (b : Build) (s : sd) (p : depth_packet)
    (h : bad_footer b s.gspca_dev.pkt_size p) :
    (sd_depth_pkt_scan b s p).synced = 0 ∧
    (sd_depth_pkt_scan b s p).gspca_dev.last_packet_type = DISCARD_PACKET ∧
    (sd_depth_pkt_scan b s p).gspca_dev.frame_add_calls = s.gspca_dev.frame_add_calls ∧
    (sd_depth_pkt_scan b s p).gspca_dev.image = s.gspca_dev.image ∧
    (sd_depth_pkt_scan b s p).gspca_dev.image_len = s.gspca_dev.image_len ∧
    (sd_depth_pkt_scan b s p).gspca_dev.frames = s.gspca_dev.frames := by
  obtain ⟨h1, h2⟩ := h
  have e : sd_depth_pkt_scan b s p = discard s := by
    unfold sd_depth_pkt_scan
    rw [if_pos (fun e => h1 e.symm)]
    rcases h2 with h2 | ⟨h2, h3⟩
    · rw [if_pos (fun e => h2 e.symm)]
    · rw [if_neg (not_not.mpr h2.symm), if_pos (fun e => h3 e.symm)]
  rw [e]
  exact ⟨rfl, rfl, rfl, rfl, rfl, rfl⟩

/-- Witness of C2: a synchronised framer meets a footer with a non-zero marker. -/
theorem sd_depth_pkt_scan_bad_footer_witness :
    (sd_depth_pkt_scan build0 sd_synced bad_marker_pkt).synced = 0 ∧
    (sd_depth_pkt_scan build0 sd_synced bad_marker_pkt).gspca_dev.last_packet_type
      = DISCARD_PACKET ∧
    (sd_depth_pkt_scan build0 sd_synced bad_marker_pkt).gspca_dev.frame_add_calls = [] :=
  have h := sd_depth_pkt_scan_bad_footer build0 sd_synced bad_marker_pkt (by decide)
  ⟨h.1, h.2.1, h.2.2.1⟩

@[simp] theorem sd_depth_pkt_scan_pkt_size (b : Build) (s : sd) (p : depth_packet) :
    (sd_depth_pkt_scan b s p).gspca_dev.pkt_size = s.gspca_dev.pkt_size := by
  unfold sd_depth_pkt_scan
  split_ifs <;> simp [discard]

theorem depth_steps_mem (b : Build) (ps : List depth_packet) :
    ∀ (s : sd) (t : sd × depth_packet × sd), t ∈ depth_steps b s ps →
      t.2.2 = sd_depth_pkt_scan b t.1 t.2.1 ∧ t.1.gspca_dev.pkt_size = s.gspca_dev.pkt_size := by
  induction ps with
  | nil =>
    intro s t ht
    simp [depth_steps] at ht
  | cons p ps ih =>
    intro s t ht
    simp only [depth_steps, List.mem_cons] at ht
    rcases ht with rfl | ht
    · exact ⟨rfl, rfl⟩
    · have := ih _ t ht
      exact ⟨this.1, by rw [this.2, sd_depth_pkt_scan_pkt_size]⟩

theorem depth_nominal_run (b : Build) (p : depth_packet) (noms : List depth_packet) :
    ∀ s : sd, s.synced = 0 → (∀ q ∈ noms, nominal s.gspca_dev.pkt_size q) →
      resync_packet b s.gspca_dev.pkt_size p →
      sync_transitions b s (noms ++ [p]) = 1 ∧
      (depth_scan_all b s (noms ++ [p])).gspca_dev.frame_add_calls
        = s.gspca_dev.frame_add_calls ∧
      (depth_scan_all b s (noms ++ [p])).synced = 1 := by
  induction noms with
  | nil =>
    intro s hs _ hp
    have h := sd_depth_pkt_scan_unsynced b s p hs
    have h1 : (sd_depth_pkt_scan b s p).synced = 1 := h.2.1.mpr hp
    refine ⟨?_, h.1, h1⟩
    simp [sync_transitions, depth_steps, hs, h1]
  | cons q noms ih =>
    intro s hs hn hp
    have hq : nominal s.gspca_dev.pkt_size q := hn q (List.mem_cons_self _ _)
    have hnr : ¬ resync_packet b s.gspca_dev.pkt_size q := fun hr => hr.1.1 hq
    have h := sd_depth_pkt_scan_unsynced b s q hs
    have h0 : (sd_depth_pkt_scan b s q).synced = 0 := h.2.2.1 hnr
    have hi := ih (sd_depth_pkt_scan b s q) h0
      (by rw [h.2.2.2]; exact fun r hr => hn r (List.mem_cons_of_mem _ hr))
      (by rw [h.2.2.2]; exact hp)
    refine ⟨?_, ?_, ?_⟩
    · have := hi.1
      simp only [sync_transitions, depth_steps, List.cons_append] at this ⊢
      rw [List.filter_cons_of_neg (by simp [h0])]
      exact this
    · have := hi.2.1
      simp only [depth_scan_all, List.cons_append, List.foldl_cons] at this ⊢
      rw [this, h.1]
    · have := hi.2.2
      simp only [depth_scan_all, List.cons_append, List.foldl_cons] at this ⊢
      exact this

/-- C3: in a run of sd_depth_pkt_scan that starts from synced = 0, over any
sequence of packets, a packet processed while synced is 0 is never handed to
gspca_frame_add, and synced goes from 0 to 1 on it if and only if its length
differs from pkt_size, its footer marker is 0, its declared length is
KINECT2_DEPTH_IMAGE_SIZE and its sub-sequence is 9 (otherwise synced stays 0).
In particular a run of nominal-size packets closed by one such packet makes
exactly one 0-to-1 transition and hands nothing to the sink. -/
theorem depth_resync (b : Build) (s0 : sd) (ps : List depth_packet) (h0 : s0.synced = 0) :
    (∀ t ∈ depth_steps b s0 ps, t.1.synced = 0 →
        t.2.2.gspca_dev.frame_add_calls = t.1.gspca_dev.frame_add_calls ∧
        (t.2.2.synced = 1 ↔ resync_packet b s0.gspca_dev.pkt_size t.2.1) ∧
        (¬ resync_packet b s0.gspca_dev.pkt_size t.2.1 → t.2.2.synced = 0)) ∧
    (∀ noms p, ps = noms ++ [p] → (∀ q ∈ noms, nominal s0.gspca_dev.pkt_size q) →
        resync_packet b s0.gspca_dev.pkt_size p →
        sync_transitions b s0 ps = 1 ∧
        (depth_scan_all b s0 ps).gspca_dev.frame_add_calls = s0.gspca_dev.frame_add_calls ∧
        (depth_scan_all b s0 ps).synced = 1) := by
  constructor
  · intro t ht hsync
    obtain ⟨e, hsz⟩ := depth_steps_mem b ps s0 t ht
    have h := sd_depth_pkt_scan_unsynced b t.1 t.2.1 hsync
    rw [e, ← hsz]
    exact ⟨h.1, h.2.1, h.2.2.1⟩
  · intro noms p e hn hp
    rw [e]
    exact depth_nominal_run b p noms s0 h0 hn hp

/-- Witness of C3: two nominal-size packets, then a short packet with a valid
footer of sub-sequence 9, on an unsynchronised depth interface. -/
theorem depth_resync_witness :
    sync_transitions build0 sd_depth [nominal_pkt, nominal_pkt, short_pkt 9] = 1 ∧
    (depth_scan_all build0 sd_depth [nominal_pkt, nominal_pkt, short_pkt 9]).gspca_dev.frame_add_calls
      = [] ∧
    (depth_scan_all build0 sd_depth [nominal_pkt, nominal_pkt, short_pkt 9]).synced = 1 :=
  (depth_resync build0 sd_depth [nominal_pkt, nominal_pkt, short_pkt 9] rfl).2
    [nominal_pkt, nominal_pkt] (short_pkt 9) rfl (by decide) (by decide)

/-! ### C8: what the depth framer hands over -/

/-- C8, as amended: a depth packet that sd_depth_pkt_scan appends while synced is
handed to gspca_frame_add whole.  For a packet whose length differs from the
nominal size and whose footer is valid the length passed is the packet length,
footer included (tag LAST for sub-sequence 9, INTER otherwise); a packet of
exactly the nominal size is passed whole as well (tag FIRST when image_len is
0, INTER otherwise). -/
theorem sd_depth_pkt_scan_hands_whole_packet (b : Build) (s : sd) (p : depth_packet)
    (hs : s.synced ≠ 0) :
    (valid_short b s.gspca_dev.pkt_size p →
      (sd_depth_pkt_scan b s p).gspca_dev.frame_add_calls = s.gspca_dev.frame_add_calls ++
        [⟨if 9 = p.f.subsequence then LAST_PACKET else INTER_PACKET, p.data, p.datalen⟩]) ∧
    (nominal s.gspca_dev.pkt_size p →
      (sd_depth_pkt_scan b s p).gspca_dev.frame_add_calls = s.gspca_dev.frame_add_calls ++
        [⟨if 0 = s.gspca_dev.image_len then FIRST_PACKET else INTER_PACKET, p.data, p.datalen⟩]) := by
  constructor
  · rintro ⟨h1, h2, h3⟩
    unfold sd_depth_pkt_scan
    rw [if_pos (fun e => h1 e.symm), if_neg (not_not.mpr h2.symm),
      if_neg (not_not.mpr h3.symm), if_pos hs]
    simp
  · intro h1
    unfold sd_depth_pkt_scan
    rw [if_neg (not_not.mpr h1.symm), if_pos hs]
    simp

/-- Witness of C8 as amended: a synchronised framer receives a short packet of
200 bytes with a valid footer of sub-sequence 3. -/
theorem sd_depth_pkt_scan_hands_whole_packet_witness :
    (sd_depth_pkt_scan build0 sd_synced (short_pkt 3)).gspca_dev.frame_add_calls
      = [⟨INTER_PACKET, (short_pkt 3).data, 200⟩] :=
  (sd_depth_pkt_scan_hands_whole_packet build0 sd_synced (short_pkt 3) (by decide)).1
    (by decide)

/-- C8 fails as stated: with a footer of 152 bytes, a synchronised framer that
receives a short packet of 200 bytes with a valid footer passes the length 200
to gspca_frame_add, not 200 - 152 = 48. -/
theorem depth_footer_not_stripped :
    (sd_depth_pkt_scan build0 sd_synced (short_pkt 9)).gspca_dev.frame_add_calls
      = [⟨LAST_PACKET, (short_pkt 9).data, 200⟩] ∧
    (short_pkt 9).datalen - build0.sizeof_depth_footer = 48 ∧
    ¬ (∀ c ∈ (sd_depth_pkt_scan build0 sd_synced (short_pkt 9)).gspca_dev.frame_add_calls,
        c.len = (short_pkt 9).datalen - build0.sizeof_depth_footer) := by
  refine ⟨rfl, rfl, ?_⟩
  intro h
  have := h ⟨LAST_PACKET, (short_pkt 9).data, 200⟩ (List.mem_singleton.mpr rfl)
  exact absurd this (by decide)

/-! ### C10 and C5: the colour framer -/

@[simp] theorem color_frame_add_calls (s : sd) (data : List Nat) (datalen : Nat) :
    (color_frame_add s data datalen).gspca_dev.frame_add_calls =
      s.gspca_dev.frame_add_calls ++
        [⟨if BULK_SIZE ≠ datalen then LAST_PACKET
          else if s.gspca_dev.image_len ≠ 0 then INTER_PACKET else FIRST_PACKET,
          data, datalen⟩] := by
  simp [color_frame_add]

/-- The word loaded from the head of a buffer is the magic exactly when each of
the first four bytes is 0x42, on either byte order. -/
theorem color_header_magic_iff (b : Build) (data : List Nat)
    (hbytes : ∀ i, data.getD i 0 < 256) :
    color_header_magic b data = 0x42424242 ↔
      data.getD 0 0 = 0x42 ∧ data.getD 1 0 = 0x42 ∧ data.getD 2 0 = 0x42 ∧
        data.getD 3 0 = 0x42 := by
  have h0 := hbytes 0
  have h1 := hbytes 1
  have h2 := hbytes 2
  have h3 := hbytes 3
  unfold color_header_magic
  cases b.big_endian
  · simp only [Bool.false_eq_true, if_false]
    omega
  · simp only [if_true]
    omega

/-- C10: a colour packet that arrives while no frame is in progress (image_len
= 0) and does not carry the magic 0x42424242 at its head is not handed to
gspca_frame_add, whatever its length, and leaves the sink state (image_len,
last_packet_type, the whole gspca_dev) as it was; a packet that arrives while a
frame is in progress (image_len != 0) is handed to the sink whatever its head
holds, as LAST when its length is not 32768 and as INTER otherwise. -/
theorem sd_color_pkt_scan_magic (b : Build) (s : sd) (data : List Nat) (datalen : Nat) :
    (s.gspca_dev.image_len = 0 → color_header_magic b data ≠ 0x42424242 →
      (sd_color_pkt_scan b s data datalen).gspca_dev.frame_add_calls
        = s.gspca_dev.frame_add_calls ∧
      (sd_color_pkt_scan b s data datalen).gspca_dev.image_len = s.gspca_dev.image_len ∧
      (sd_color_pkt_scan b s data datalen).gspca_dev.last_packet_type
        = s.gspca_dev.last_packet_type ∧
      (sd_color_pkt_scan b s data datalen).gspca_dev = s.gspca_dev) ∧
    (s.gspca_dev.image_len ≠ 0 →
      (sd_color_pkt_scan b s data datalen).gspca_dev.frame_add_calls
        = s.gspca_dev.frame_add_calls ++
          [⟨if BULK_SIZE ≠ datalen then LAST_PACKET else INTER_PACKET, data, datalen⟩] ∧
      (sd_color_pkt_scan b s data datalen).gspca_dev
        = gspca_frame_add s.gspca_dev
            (if BULK_SIZE ≠ datalen then LAST_PACKET else INTER_PACKET) data datalen) := by
  constructor
  · intro h0 hm
    have e : sd_color_pkt_scan b s data datalen
        = { s with scan_calls := s.scan_calls ++ [(data, datalen)] } := by
      unfold sd_color_pkt_scan
      simp only []
      rw [if_pos h0, if_pos (fun e => hm e.symm)]
    rw [e]
    exact ⟨rfl, rfl, rfl, rfl⟩
  · intro h0
    have e : sd_color_pkt_scan b s data datalen
        = color_frame_add { s with scan_calls := s.scan_calls ++ [(data, datalen)] }
            data datalen := by
      unfold sd_color_pkt_scan
      simp only []
      rw [if_neg h0]
    rw [e]
    constructor
    · rw [color_frame_add_calls]
      simp [h0]
    · simp [color_frame_add, h0]

/-- Witness of C10: a full-size packet without the magic on an idle sink; a short
packet without the magic while 100 bytes of a frame are in progress. -/
theorem sd_color_pkt_scan_magic_witness :
    (sd_color_pkt_scan build0 sd0 plain_buf 32768).gspca_dev = sd0.gspca_dev ∧
    (sd_color_pkt_scan build0
        { sd0 with gspca_dev := { sd0.gspca_dev with image_len := 100 } }
        plain_buf 500).gspca_dev.frame_add_calls = [⟨LAST_PACKET, plain_buf, 500⟩] :=
  ⟨((sd_color_pkt_scan_magic build0 sd0 plain_buf 32768).1 rfl (by decide)).2.2.2,
   ((sd_color_pkt_scan_magic build0
      { sd0 with gspca_dev := { sd0.gspca_dev with image_len := 100 } }
      plain_buf 500).2 (by decide)).1⟩

theorem sd_color_pkt_scan_first (b : Build) (s : sd) (data : List Nat)
    (h0 : s.gspca_dev.image_len = 0) (hm : color_header_magic b data = 0x42424242) :
    sd_color_pkt_scan b s data BULK_SIZE =
      { s with
        scan_calls := s.scan_calls ++ [(data, BULK_SIZE)]
        gspca_dev := gspca_frame_add s.gspca_dev FIRST_PACKET data BULK_SIZE } := by
  unfold sd_color_pkt_scan
  simp only []
  rw [if_pos h0, if_neg (not_not.mpr hm.symm)]
  simp [color_frame_add, h0]

theorem sd_color_pkt_scan_last (b : Build) (s : sd) (data : List Nat) (datalen : Nat)
    (hlen : datalen ≠ BULK_SIZE)
    (hm : s.gspca_dev.image_len = 0 → color_header_magic b data = 0x42424242) :
    sd_color_pkt_scan b s data datalen =
      { s with
        scan_calls := s.scan_calls ++ [(data, datalen)]
        gspca_dev := gspca_frame_add s.gspca_dev LAST_PACKET data datalen } := by
  unfold sd_color_pkt_scan
  simp only []
  by_cases h0 : s.gspca_dev.image_len = 0
  · rw [if_pos h0, if_neg (not_not.mpr (hm h0).symm)]
    simp only [color_frame_add]
    rw [if_pos (fun e => hlen e.symm)]
  · rw [if_neg h0]
    simp only [color_frame_add]
    rw [if_pos (fun e => hlen e.symm)]

/-- C5: on a sink with no frame in progress (image_len = 0, no bytes
accumulated), a full-size packet (32768 bytes) with the magic at its head
followed by a shorter packet is handed over as FIRST_PACKET then LAST_PACKET and
completes one frame made of both; two shorter packets that each carry the magic
are each handed over as LAST_PACKET with image_len back at 0 in between, and
complete two frames, one per packet. -/
theorem sd_color_pkt_scan_two_packets (b : Build) (s : sd) (d1 d2 : List Nat) (n1 n2 : Nat)
    (h0 : s.gspca_dev.image_len = 0) (himg : s.gspca_dev.image = []) :
    (n1 = BULK_SIZE → color_header_magic b d1 = 0x42424242 → n2 < BULK_SIZE →
      (color_scan_all b s [(d1, n1), (d2, n2)]).gspca_dev.frame_add_calls
        = s.gspca_dev.frame_add_calls ++ [⟨FIRST_PACKET, d1, n1⟩, ⟨LAST_PACKET, d2, n2⟩] ∧
      (color_scan_all b s [(d1, n1), (d2, n2)]).gspca_dev.frames
        = s.gspca_dev.frames ++ [d1.take n1 ++ d2.take n2] ∧
      (color_scan_all b s [(d1, n1), (d2, n2)]).gspca_dev.image_len = 0) ∧
    (n1 < BULK_SIZE → n2 < BULK_SIZE → color_header_magic b d1 = 0x42424242 →
      color_header_magic b d2 = 0x42424242 →
      (color_scan_all b s [(d1, n1), (d2, n2)]).gspca_dev.frame_add_calls
        = s.gspca_dev.frame_add_calls ++ [⟨LAST_PACKET, d1, n1⟩, ⟨LAST_PACKET, d2, n2⟩] ∧
      (sd_color_pkt_scan b s d1 n1).gspca_dev.image_len = 0 ∧
      (color_scan_all b s [(d1, n1), (d2, n2)]).gspca_dev.frames
        = s.gspca_dev.frames ++ [d1.take n1, d2.take n2] ∧
      (color_scan_all b s [(d1, n1), (d2, n2)]).gspca_dev.image_len = 0) := by
  constructor
  · intro e1 hm1 hn2
    subst e1
    have hne : n2 ≠ BULK_SIZE := Nat.ne_of_lt hn2
    simp only [color_scan_all, List.foldl_cons, List.foldl_nil]
    rw [sd_color_pkt_scan_first b s d1 h0 hm1]
    rw [sd_color_pkt_scan_last b _ d2 n2 hne
      (fun h => absurd h (by simp [gspca_frame_add, BULK_SIZE]))]
    simp [gspca_frame_add]
  · intro hn1 hn2 hm1 hm2
    have hne1 : n1 ≠ BULK_SIZE := Nat.ne_of_lt hn1
    have hne2 : n2 ≠ BULK_SIZE := Nat.ne_of_lt hn2
    simp only [color_scan_all, List.foldl_cons, List.foldl_nil]
    rw [sd_color_pkt_scan_last b s d1 n1 hne1 (fun _ => hm1)]
    rw [sd_color_pkt_scan_last b _ d2 n2 hne2 (fun _ => hm2)]
    simp [gspca_frame_add, himg]

/-- Witness of C5: a full buffer with the magic followed by 500 bytes, and two
packets of 500 bytes that both carry the magic, on a fresh device. -/
theorem sd_color_pkt_scan_two_packets_witness :
    tags (color_scan_all build0 sd0 [(magic_buf, 32768), (plain_buf, 500)]).gspca_dev.frame_add_calls
      = [FIRST_PACKET, LAST_PACKET] ∧
    tags (color_scan_all build0 sd0 [(magic_buf, 500), (magic_buf, 500)]).gspca_dev.frame_add_calls
      = [LAST_PACKET, LAST_PACKET] :=
  ⟨congrArg tags ((sd_color_pkt_scan_two_packets build0 sd0 magic_buf plain_buf 32768 500
      rfl rfl).1 rfl (by decide) (by decide)).1,
   congrArg tags ((sd_color_pkt_scan_two_packets build0 sd0 magic_buf magic_buf 500 500
      rfl rfl).2 (by decide) (by decide) (by decide) (by decide)).1⟩

/-! ### C4: full cycles after resynchronisation -/

theorem depth_scan_nominal_synced (b : Build) (s : sd) (p : depth_packet) (hs : s.synced ≠ 0)
    (hp : nominal s.gspca_dev.pkt_size p) :
    sd_depth_pkt_scan b s p =
      { s with
        gspca_dev := gspca_frame_add s.gspca_dev
          (if 0 = s.gspca_dev.image_len then FIRST_PACKET else INTER_PACKET) p.data p.datalen } := by
  unfold sd_depth_pkt_scan
  rw [if_neg (not_not.mpr hp.symm), if_pos hs]

theorem depth_scan_short_synced (b : Build) (s : sd) (p : depth_packet) (hs : s.synced ≠ 0)
    (hp : valid_short b s.gspca_dev.pkt_size p) :
    sd_depth_pkt_scan b s p =
      { s with
        gspca_dev := gspca_frame_add s.gspca_dev
          (if 9 = p.f.subsequence then LAST_PACKET else INTER_PACKET) p.data p.datalen } := by
  obtain ⟨h1, h2, h3⟩ := hp
  unfold sd_depth_pkt_scan
  rw [if_pos (fun e => h1 e.symm), if_neg (not_not.mpr h2.symm),
    if_neg (not_not.mpr h3.symm), if_pos hs]

/-- Inside a frame (image_len != 0) every packet of the body of a cycle is handed
over as INTER and the frame stays in progress. -/
theorem depth_scan_body (b : Build) (body : List depth_packet) :
    ∀ s : sd, s.synced ≠ 0 → s.gspca_dev.image_len ≠ 0 →
      (∀ q ∈ body, nominal s.gspca_dev.pkt_size q ∨
        (valid_short b s.gspca_dev.pkt_size q ∧ q.f.subsequence ≠ 9)) →
      (depth_scan_all b s body).gspca_dev.frame_add_calls =
          s.gspca_dev.frame_add_calls ++ body.map (fun q => ⟨INTER_PACKET, q.data, q.datalen⟩) ∧
        (depth_scan_all b s body).gspca_dev.image_len ≠ 0 ∧
        (depth_scan_all b s body).synced = s.synced ∧
        (depth_scan_all b s body).gspca_dev.pkt_size = s.gspca_dev.pkt_size ∧
        (depth_scan_all b s body).gspca_dev.frames = s.gspca_dev.frames := by
  induction body with
  | nil =>
    intro s _ h0 _
    exact ⟨by simp [depth_scan_all], h0, rfl, rfl, rfl⟩
  | cons q body ih =>
    intro s hs h0 hb
    have hq := hb q (List.mem_cons_self _ _)
    have step : sd_depth_pkt_scan b s q =
        { s with gspca_dev := gspca_frame_add s.gspca_dev INTER_PACKET q.data q.datalen } := by
      rcases hq with hq | ⟨hq, h9⟩
      · rw [depth_scan_nominal_synced b s q hs hq, if_neg (fun e => h0 e.symm)]
      · rw [depth_scan_short_synced b s q hs hq, if_neg (fun e => h9 e.symm)]
    have hlen : (sd_depth_pkt_scan b s q).gspca_dev.image_len ≠ 0 := by
      rw [step]
      simp only [gspca_frame_add]
      omega
    have hsy : (sd_depth_pkt_scan b s q).synced = s.synced := by rw [step]
    have hi := ih (sd_depth_pkt_scan b s q) (by rw [hsy]; exact hs) hlen
      (by rw [sd_depth_pkt_scan_pkt_size]; exact fun r hr => hb r (List.mem_cons_of_mem _ hr))
    simp only [depth_scan_all, List.foldl_cons] at hi ⊢
    refine ⟨?_, hi.2.1, by rw [hi.2.2.1, hsy], ?_, ?_⟩
    · rw [hi.1, step]
      simp
    · rw [hi.2.2.2.1, sd_depth_pkt_scan_pkt_size]
    · rw [hi.2.2.2.2, step]
      rfl

/-- One full cycle on a synchronised framer whose sink has no frame in progress. -/
theorem depth_scan_cycle (b : Build) (s : sd) (c : frame_cycle) (hs : s.synced ≠ 0)
    (h0 : s.gspca_dev.image_len = 0) (hsz : 0 < s.gspca_dev.pkt_size)
    (hc : c.well_formed b s.gspca_dev.pkt_size) :
    (depth_scan_all b s c.packets).gspca_dev.frame_add_calls =
        s.gspca_dev.frame_add_calls ++ c.expected ∧
      (sd_depth_pkt_scan b s c.first).gspca_dev.image_len ≠ 0 ∧
      (depth_scan_all b s c.packets).gspca_dev.image_len = 0 ∧
      (depth_scan_all b s c.packets).synced = s.synced ∧
      (depth_scan_all b s c.packets).gspca_dev.pkt_size = s.gspca_dev.pkt_size ∧
      (depth_scan_all b s c.packets).gspca_dev.frames.length = s.gspca_dev.frames.length + 1 := by
  obtain ⟨hf, hb, hl, h9⟩ := hc
  have step1 : sd_depth_pkt_scan b s c.first =
      { s with gspca_dev := gspca_frame_add s.gspca_dev FIRST_PACKET c.first.data c.first.datalen } := by
    rw [depth_scan_nominal_synced b s c.first hs hf, if_pos h0.symm]
  have hlen1 : (sd_depth_pkt_scan b s c.first).gspca_dev.image_len ≠ 0 := by
    rw [step1]
    simp only [gspca_frame_add]
    have : c.first.datalen = s.gspca_dev.pkt_size := hf
    omega
  have hsy1 : (sd_depth_pkt_scan b s c.first).synced = s.synced := by rw [step1]
  have hbody := depth_scan_body b c.body (sd_depth_pkt_scan b s c.first)
    (by rw [hsy1]; exact hs) hlen1 (by rw [sd_depth_pkt_scan_pkt_size]; exact hb)
  obtain ⟨hb1, _, hb3, hb4, hb5⟩ := hbody
  have hsy2 : (depth_scan_all b (sd_depth_pkt_scan b s c.first) c.body).synced ≠ 0 := by
    rw [hb3, hsy1]
    exact hs
  have step3 := depth_scan_short_synced b
    (depth_scan_all b (sd_depth_pkt_scan b s c.first) c.body) c.last hsy2
    (by rw [hb4, sd_depth_pkt_scan_pkt_size]; exact hl)
  rw [if_pos h9.symm] at step3
  have e : depth_scan_all b s c.packets =
      sd_depth_pkt_scan b (depth_scan_all b (sd_depth_pkt_scan b s c.first) c.body) c.last := by
    simp [depth_scan_all, frame_cycle.packets, List.foldl_append]
  have hcalls1 : (sd_depth_pkt_scan b s c.first).gspca_dev.frame_add_calls =
      s.gspca_dev.frame_add_calls ++ [⟨FIRST_PACKET, c.first.data, c.first.datalen⟩] := by
    rw [step1]
    exact gspca_frame_add_calls _ _ _ _
  have hfr1 : (sd_depth_pkt_scan b s c.first).gspca_dev.frames = s.gspca_dev.frames := by
    rw [step1]
    rfl
  rw [e, step3]
  refine ⟨?_, hlen1, rfl, ?_, ?_, ?_⟩
  · show (gspca_frame_add _ LAST_PACKET c.last.data c.last.datalen).frame_add_calls = _
    rw [gspca_frame_add_calls, hb1, hcalls1]
    simp [frame_cycle.expected]
  · show (depth_scan_all b (sd_depth_pkt_scan b s c.first) c.body).synced = s.synced
    rw [hb3, hsy1]
  · show (gspca_frame_add _ LAST_PACKET c.last.data c.last.datalen).pkt_size = _
    rw [gspca_frame_add_pkt_size, hb4, sd_depth_pkt_scan_pkt_size]
  · show ((depth_scan_all b (sd_depth_pkt_scan b s c.first) c.body).gspca_dev.frames ++
      [_]).length = _
    rw [List.length_append, hb5, hfr1, List.length_singleton]

/-- C4, as amended: on a synchronised framer (synced != 0) whose sink has no frame
in progress at that moment (image_len = 0), with a non-zero nominal packet size,
every run of full, well-formed cycles is handed to the sink cycle by cycle as
FIRST_PACKET for the first nominal-size packet, INTER_PACKET for every packet
before the last, and LAST_PACKET for the closing short packet of sub-sequence
9; image_len is non-zero once the FIRST segment of a cycle is appended, it is 0
again after the run, the framer is still synchronised, and one frame per cycle
has been completed. -/
theorem depth_cycles_tagged (b : Build) (cycles : List frame_cycle) :
    ∀ s : sd, s.synced ≠ 0 → s.gspca_dev.image_len = 0 → 0 < s.gspca_dev.pkt_size →
      (∀ c ∈ cycles, c.well_formed b s.gspca_dev.pkt_size) →
      (depth_scan_all b s (cycles_packets cycles)).gspca_dev.frame_add_calls =
          s.gspca_dev.frame_add_calls ++ cycles_expected cycles ∧
        (∀ c ∈ cycles, ∀ t : sd, t.synced ≠ 0 → t.gspca_dev.image_len = 0 →
          t.gspca_dev.pkt_size = s.gspca_dev.pkt_size →
          (sd_depth_pkt_scan b t c.first).gspca_dev.image_len ≠ 0) ∧
        (depth_scan_all b s (cycles_packets cycles)).gspca_dev.image_len = 0 ∧
        (depth_scan_all b s (cycles_packets cycles)).synced = s.synced ∧
        (depth_scan_all b s (cycles_packets cycles)).gspca_dev.frames.length =
          s.gspca_dev.frames.length + cycles.length := by
  induction cycles with
  | nil =>
    intro s _ h0 _ _
    refine ⟨by simp [depth_scan_all, cycles_packets, cycles_expected], ?_, h0, rfl, rfl⟩
    intro c hc
    simp at hc
  | cons c cycles ih =>
    intro s hs h0 hsz hwf
    have hc := depth_scan_cycle b s c hs h0 hsz (hwf c (List.mem_cons_self _ _))
    obtain ⟨c1, _, c3, c4, c5, c6⟩ := hc
    have hi := ih (depth_scan_all b s c.packets) (by rw [c4]; exact hs) c3
      (by rw [c5]; exact hsz)
      (by rw [c5]; exact fun d hd => hwf d (List.mem_cons_of_mem _ hd))
    have e : depth_scan_all b s (cycles_packets (c :: cycles)) =
        depth_scan_all b (depth_scan_all b s c.packets) (cycles_packets cycles) := by
      simp [depth_scan_all, cycles_packets, List.foldl_append]
    rw [e]
    refine ⟨?_, ?_, hi.2.2.1, by rw [hi.2.2.2.1, c4], ?_⟩
    · rw [hi.1, c1]
      simp [cycles_expected]
    · intro d hd t ht ht0 htsz
      have hdw := hwf d hd
      exact (depth_scan_cycle b t d ht ht0 (by rw [htsz]; exact hsz)
        (by rw [htsz]; exact hdw)).2.1
    · rw [hi.2.2.2.2, c6]
      simp only [List.length_cons]
      omega

/-- Witness of C4 as amended: two full cycles on a synchronised framer with an
idle sink. -/
theorem depth_cycles_tagged_witness :
    tags ((depth_scan_all build0 sd_synced
        (cycles_packets [full_cycle, full_cycle])).gspca_dev.frame_add_calls)
      = tags (cycles_expected [full_cycle, full_cycle]) ∧
    (depth_scan_all build0 sd_synced
        (cycles_packets [full_cycle, full_cycle])).gspca_dev.frames.length = 2 :=
  have h := depth_cycles_tagged build0 [full_cycle, full_cycle] sd_synced (by decide) rfl
    (by decide) (by decide)
  ⟨congrArg tags h.1, h.2.2.2.2⟩

/-- C4 fails as stated: a frame is started, synchronisation is lost halfway on a
bad footer (image_len stays at 1024) and is restored by the next sub-sequence 9.
The full cycle that follows is well formed, yet its first nominal-size packet is
handed over as INTER_PACKET: the cycle reaches the sink without any FIRST_PACKET. -/
theorem depth_cycle_after_abandoned_frame :
    abandoned_then_resynced.synced = 1 ∧
    abandoned_then_resynced.gspca_dev.image_len = 1024 ∧
    full_cycle.well_formed build0 abandoned_then_resynced.gspca_dev.pkt_size ∧
    tags ((sd_depth_pkt_scan build0 abandoned_then_resynced full_cycle.first).gspca_dev.frame_add_calls.drop
        abandoned_then_resynced.gspca_dev.frame_add_calls.length) = [INTER_PACKET] ∧
    FIRST_PACKET ∉ tags ((depth_scan_all build0 abandoned_then_resynced
        full_cycle.packets).gspca_dev.frame_add_calls.drop
          abandoned_then_resynced.gspca_dev.frame_add_calls.length) ∧
    tags ((depth_scan_all build0 abandoned_then_resynced
        full_cycle.packets).gspca_dev.frame_add_calls.drop
          abandoned_then_resynced.gspca_dev.frame_add_calls.length) ≠ tags full_cycle.expected := by
  refine ⟨by decide, by decide, by decide, by decide, by decide, by decide⟩

/-! ### C7 and C9: the completion callback of the colour pool -/

@[simp] theorem sd_color_pkt_scan_usb_calls (b : Build) (s : sd) (data : List Nat) (datalen : Nat) :
    (sd_color_pkt_scan b s data datalen).usb_calls = s.usb_calls := by
  unfold sd_color_pkt_scan
  simp only []
  split_ifs <;> rfl

@[simp] theorem sd_color_pkt_scan_scan_calls (b : Build) (s : sd) (data : List Nat)
    (datalen : Nat) :
    (sd_color_pkt_scan b s data datalen).scan_calls = s.scan_calls ++ [(data, datalen)] := by
  unfold sd_color_pkt_scan
  simp only []
  split_ifs <;> rfl

@[simp] theorem sd_color_pkt_scan_active_urbs (b : Build) (s : sd) (data : List Nat)
    (datalen : Nat) : (sd_color_pkt_scan b s data datalen).active_urbs = s.active_urbs := by
  unfold sd_color_pkt_scan
  simp only []
  split_ifs <;> rfl

theorem sd_color_pkt_scan_shutdown (b : Build) (s : sd) (data : List Nat) (datalen : Nat)
    (v : Nat) :
    sd_color_pkt_scan b { s with shutdown := v } data datalen =
      { sd_color_pkt_scan b s data datalen with shutdown := v } := by
  unfold sd_color_pkt_scan
  simp only []
  split_ifs <;> rfl

/-- C7, as amended: bulk_pkt drops the buffer (the state, the log of scanned
packets and the log of USB calls are as before) when streaming is 0 or the
transfer status is not 0; when streaming is non-zero and the status is 0 the
bytes go to sd_color_pkt_scan and the same buffer is resubmitted.  The shutdown
flag plays no part: setting it to any value before the callback changes nothing
but that field of the result. -/
theorem bulk_pkt_drop_or_resubmit (b : Build) (r : Int) (s : sd) (u : urb) :
    ((s.gspca_dev.streaming = 0 ∨ u.status ≠ 0) → bulk_pkt b r s u = s) ∧
    ((s.gspca_dev.streaming ≠ 0 ∧ u.status = 0) →
      bulk_pkt b r s u = log_usb (sd_color_pkt_scan b s u.transfer_buffer u.actual_length)
        (usb_call.submit_urb u.id r) ∧
      (bulk_pkt b r s u).scan_calls = s.scan_calls ++ [(u.transfer_buffer, u.actual_length)] ∧
      (bulk_pkt b r s u).usb_calls = s.usb_calls ++ [usb_call.submit_urb u.id r]) ∧
    (∀ v : Nat, bulk_pkt b r { s with shutdown := v } u = { bulk_pkt b r s u with shutdown := v }) := by
  refine ⟨?_, ?_, ?_⟩
  · intro h
    unfold bulk_pkt
    by_cases h1 : s.gspca_dev.streaming = 0
    · rw [if_pos h1]
    · rw [if_neg h1, if_pos (h.resolve_left h1)]
  · rintro ⟨h1, h2⟩
    have e : bulk_pkt b r s u = log_usb (sd_color_pkt_scan b s u.transfer_buffer u.actual_length)
        (usb_call.submit_urb u.id r) := by
      unfold bulk_pkt
      rw [if_neg h1, if_neg (not_not.mpr h2)]
    rw [e]
    refine ⟨rfl, ?_, ?_⟩
    · show (sd_color_pkt_scan b s u.transfer_buffer u.actual_length).scan_calls = _
      rw [sd_color_pkt_scan_scan_calls]
    · show (sd_color_pkt_scan b s u.transfer_buffer u.actual_length).usb_calls ++ _ = _
      rw [sd_color_pkt_scan_usb_calls]
  · intro v
    unfold bulk_pkt
    by_cases h1 : s.gspca_dev.streaming = 0
    · rw [if_pos h1, if_pos (show ({ s with shutdown := v } : sd).gspca_dev.streaming = 0 from h1)]
    · rw [if_neg h1, if_neg (show ¬ ({ s with shutdown := v } : sd).gspca_dev.streaming = 0 from h1)]
      by_cases h2 : u.status ≠ 0
      · rw [if_pos h2, if_pos h2]
      · rw [if_neg h2, if_neg h2]
        simp only []
        rw [sd_color_pkt_scan_shutdown]
        rfl

/-- Witness of C7 as amended: a completion with status -2 on an active stream is
dropped; a completion with status 0 on an active stream is scanned and resubmitted. -/
theorem bulk_pkt_drop_or_resubmit_witness :
    bulk_pkt build0 0 sd_streaming { completed_urb 2 with status := -2 } = sd_streaming ∧
    (bulk_pkt build0 0 sd_streaming (completed_urb 2)).usb_calls = [usb_call.submit_urb 2 0] :=
  ⟨(bulk_pkt_drop_or_resubmit build0 0 sd_streaming { completed_urb 2 with status := -2 }).1
      (Or.inr (by decide)),
   ((bulk_pkt_drop_or_resubmit build0 0 sd_streaming (completed_urb 2)).2.1
      ⟨by decide, rfl⟩).2.2⟩

/-- C7 fails as stated: after sd_stopN has set the shutdown flag on a stream that
is still marked active, a transfer completing with status 0 is passed to
sd_color_pkt_scan and its buffer is resubmitted. -/
theorem bulk_pkt_resubmits_after_shutdown :
    (sd_stopN build0 (transfers_ok 0 0) sd_streaming).shutdown = 1 ∧
    (bulk_pkt build0 0 (sd_stopN build0 (transfers_ok 0 0) sd_streaming) (completed_urb 2)).scan_calls
      = [(magic_buf, 32768)] ∧
    (bulk_pkt build0 0 (sd_stopN build0 (transfers_ok 0 0) sd_streaming) (completed_urb 2)).usb_calls
      = [usb_call.submit_urb 2 0] ∧
    tags (bulk_pkt build0 0 (sd_stopN build0 (transfers_ok 0 0) sd_streaming) (completed_urb 2)).gspca_dev.frame_add_calls
      = [FIRST_PACKET] := by
  refine ⟨rfl, ?_, ?_, ?_⟩
  · exact sd_color_pkt_scan_scan_calls _ _ _ _
  · show (sd_color_pkt_scan build0 (sd_stopN build0 (transfers_ok 0 0) sd_streaming) magic_buf 32768).usb_calls ++ _ = _
    rw [sd_color_pkt_scan_usb_calls]
    rfl
  · decide

theorem bulk_pkt_active_urbs (b : Build) (r : Int) (s : sd) (u : urb) :
    (bulk_pkt b r s u).active_urbs = s.active_urbs := by
  unfold bulk_pkt
  split_ifs
  · rfl
  · rfl
  · exact sd_color_pkt_scan_active_urbs _ _ _ _

theorem bulk_pkt_all_active_urbs (b : Build) (cs : List (urb × Int)) :
    ∀ s : sd, (bulk_pkt_all b s cs).active_urbs = s.active_urbs := by
  induction cs with
  | nil => intro s; rfl
  | cons c cs ih =>
    intro s
    simp only [bulk_pkt_all, List.foldl_cons] at ih ⊢
    rw [ih, bulk_pkt_active_urbs]

theorem submit_loop_active_urbs (f : Nat → Int) (l : List Nat) :
    ∀ s : sd, s.active_urbs ≤ (submit_loop f l s).1.active_urbs ∧
      (submit_loop f l s).1.active_urbs ≤ s.active_urbs + l.length := by
  induction l with
  | nil =>
    intro s
    simp [submit_loop]
  | cons i l ih =>
    intro s
    unfold submit_loop
    simp only []
    by_cases hneg : f i < 0
    · rw [if_pos hneg]
      show s.active_urbs ≤ s.active_urbs ∧ s.active_urbs ≤ s.active_urbs + ((i :: l).length : Int)
      have : (0 : Int) ≤ ((i :: l).length : Int) := Int.natCast_nonneg _
      exact ⟨le_refl _, by omega⟩
    · rw [if_neg hneg]
      obtain ⟨h1, h2⟩ := ih { log_usb s (usb_call.submit_urb i (f i)) with
        active_urbs := (log_usb s (usb_call.submit_urb i (f i))).active_urbs + 1 }
      have e : ({ log_usb s (usb_call.submit_urb i (f i)) with
        active_urbs := (log_usb s (usb_call.submit_urb i (f i))).active_urbs + 1 } : sd).active_urbs
          = s.active_urbs + 1 := rfl
      rw [e] at h1 h2
      constructor
      · exact le_trans (by omega) h1
      · refine le_trans h2 ?_
        rw [List.length_cons]
        push_cast
        omega

/-- The pool never counts more than its four buffers: after the submission loop
of kinect2_dostream the count lies between 0 and 4, and no completion changes it. -/
theorem active_urbs_le_pool (b : Build) (f : Nat → Int) (s : sd) (cs : List (urb × Int)) :
    0 ≤ (bulk_pkt_all b (dostream_submit f s).1 cs).active_urbs ∧
    (bulk_pkt_all b (dostream_submit f s).1 cs).active_urbs ≤ 4 := by
  rw [bulk_pkt_all_active_urbs]
  have h := submit_loop_active_urbs f [0, 1, 2, 3] { s with active_urbs := 0 }
  simp only [List.length_cons, List.length_nil] at h
  unfold dostream_submit
  constructor
  · exact h.1
  · have := h.2
    norm_num at this
    exact this

/-- C9, the code at the failing input: the four buffers are submitted (count 4),
then each completes with status 0 and its resubmission fails with -ENOMEM.  The
four failed calls of usb_submit_urb are in the log, no buffer is submitted
again, yet active_urbs is still 4 and the condition of the wait loop is still
true: nothing in kinect2.c ever decrements the count. -/
theorem failed_resubmits_keep_active_urbs :
    (dostream_submit (fun _ => 0) sd_streaming).1.active_urbs = 4 ∧
    (bulk_pkt_all build0 (dostream_submit (fun _ => 0) sd_streaming).1
      [(completed_urb 0, -12), (completed_urb 1, -12), (completed_urb 2, -12),
        (completed_urb 3, -12)]).usb_calls.drop 4
      = [usb_call.submit_urb 0 (-12), usb_call.submit_urb 1 (-12),
          usb_call.submit_urb 2 (-12), usb_call.submit_urb 3 (-12)] ∧
    (bulk_pkt_all build0 (dostream_submit (fun _ => 0) sd_streaming).1
      [(completed_urb 0, -12), (completed_urb 1, -12), (completed_urb 2, -12),
        (completed_urb 3, -12)]).active_urbs = 4 ∧
    dostream_wait_cond (bulk_pkt_all build0 (dostream_submit (fun _ => 0) sd_streaming).1
      [(completed_urb 0, -12), (completed_urb 1, -12), (completed_urb 2, -12),
        (completed_urb 3, -12)]) = true := by
  refine ⟨by decide, by decide, by decide, by decide⟩

/-! ### C6: the parameter-page ioctl -/

/-- C6: when the page index `_IOC_NR(cmd) - BASE_VIDIOC_PRIVATE` is 0, 1 or 2 and
the declared length req->len differs from the length the table holds for that
page, sd_private_ioctl returns -EINVAL and the device state is exactly what it
was: no bulk transfer in the log, cmdseq unchanged, no allocation.  When the
page index is outside the table it returns -EOPNOTSUPP, again with the state
untouched. -/
theorem sd_private_ioctl_rejects (b : Build) (env : ioctl_env) (s : sd) (cmd : Nat)
    (req : kinect2_ioctl_req) :
    (0 ≤ ioctl_num cmd → ioctl_num cmd < 3 →
      req.len ≠ ((ioctl_table b).getD (ioctl_num cmd).toNat (0, 0)).2 →
      sd_private_ioctl b env s cmd req = (-EINVAL, s) ∧
      (sd_private_ioctl b env s cmd req).2.usb_calls = s.usb_calls ∧
      (sd_private_ioctl b env s cmd req).2.cmdseq = s.cmdseq ∧
      (sd_private_ioctl b env s cmd req).2.mem_calls = s.mem_calls) ∧
    ((ioctl_num cmd < 0 ∨ 3 ≤ ioctl_num cmd) →
      sd_private_ioctl b env s cmd req = (-EOPNOTSUPP, s) ∧
      (sd_private_ioctl b env s cmd req).2.usb_calls = s.usb_calls ∧
      (sd_private_ioctl b env s cmd req).2.cmdseq = s.cmdseq ∧
      (sd_private_ioctl b env s cmd req).2.mem_calls = s.mem_calls) := by
  constructor
  · intro h1 h2 h3
    have e : sd_private_ioctl b env s cmd req = (-EINVAL, s) := by
      unfold sd_private_ioctl
      simp only []
      rw [if_neg (by omega), if_pos h3]
    rw [e]
    exact ⟨rfl, rfl, rfl, rfl⟩
  · intro h
    have e : sd_private_ioctl b env s cmd req = (-EOPNOTSUPP, s) := by
      unfold sd_private_ioctl
      simp only []
      rw [if_pos h]
    rw [e]
    exact ⟨rfl, rfl, rfl, rfl⟩

/-- Witness of C6: page 0 (the colour camera parameters, 112 bytes in the sample
build) asked with a buffer of 5 bytes, and page 3, which the table does not hold. -/
theorem sd_private_ioctl_rejects_witness :
    sd_private_ioctl build0 ioctl_env_ok sd0 (page_ioctl 0) ⟨5, 0⟩ = (-EINVAL, sd0) ∧
    sd_private_ioctl build0 ioctl_env_ok sd0 (page_ioctl 3) ⟨112, 0⟩ = (-EOPNOTSUPP, sd0) :=
  ⟨((sd_private_ioctl_rejects build0 ioctl_env_ok sd0 (page_ioctl 0) ⟨5, 0⟩).1
      (by decide) (by decide) (by decide)).1,
   ((sd_private_ioctl_rejects build0 ioctl_env_ok sd0 (page_ioctl 3) ⟨112, 0⟩).2
      (Or.inr (by decide))).1⟩

end Kinect2
